import Mathlib

/-
Verification of the keyword-idea fetcher in `src/modules/Google_Ads.py`.

The script builds one of three seed payload variants from the supplied
keyword texts and page URL, invokes the remote idea-generation call, and
reshapes the streamed idea records into a nested mapping.  The embedding
below mirrors the Python control flow:

* Python truthiness on the inputs (an empty list and an empty string are
  falsy) is modelled by `truthyKeywords` and `truthyUrl`.
* Python exceptions (`ValueError`, `NameError` from the undefined
  identifier on line 86, `IndexError` from out-of-range indexing,
  `KeyError` from a missing dictionary key) are modelled by `Except` with
  the error type `PyError`.
* Proto wrapper objects (`StringValue`, `Int64Value`) expose their payload
  through a `.value` field in the source; numeric wrappers are flattened
  to the bare numbers here, while `StringValue` is kept because the seed
  payloads store lists of such wrappers.
* The external `MonthOfYearEnum` is modelled from the spec as the twelve
  fixed month constants, each with its symbolic `Name`; the external
  competition enum decode is modelled by storing the already decoded
  symbolic name on the record.
* The external resolution services and the remote generate call are
  parameters of the embedding, so theorems can quantify over them.
-/

namespace KJA

/-- Proto wrapper carrying a single string payload (`StringValue`). -/
structure StringValue where
  value : String
  deriving DecidableEq, Repr

/-- Python exceptions that the script can raise. -/
inductive PyError where
  | valueError
  | nameError
  | indexError
  | keyError
  deriving DecidableEq, Repr

/-- Modelled from the spec: the external month-of-year enum has twelve
fixed named constants, JANUARY through DECEMBER. -/
inductive Month where
  | january
  | february
  | march
  | april
  | may
  | june
  | july
  | august
  | september
  | october
  | november
  | december
  deriving DecidableEq, Repr

/-- Modelled from the spec: the symbolic name of a month constant, as
returned by the external enum's name decoder. -/
def Month.Name : Month → String
  | .january => "JANUARY"
  | .february => "FEBRUARY"
  | .march => "MARCH"
  | .april => "APRIL"
  | .may => "MAY"
  | .june => "JUNE"
  | .july => "JULY"
  | .august => "AUGUST"
  | .september => "SEPTEMBER"
  | .october => "OCTOBER"
  | .november => "NOVEMBER"
  | .december => "DECEMBER"

/-- Seed payload holding only a page URL (`UrlSeed`, lines 68-70). -/
structure UrlSeed where
  url : StringValue
  deriving DecidableEq, Repr

/-- Seed payload holding only keyword texts (`KeywordSeed`, lines 75-78). -/
structure KeywordSeed where
  keywords : List StringValue
  deriving DecidableEq, Repr

/-- Seed payload holding both (`KeywordAndUrlSeed`, lines 83-87). -/
structure KeywordAndUrlSeed where
  url : StringValue
  keywords : List StringValue
  deriving DecidableEq, Repr

/-- The three optional seed variables of `main` (lines 54-56); the source
passes all three to the remote call, at most one of them set. -/
abbrev SeedTriple := Option UrlSeed × Option KeywordSeed × Option KeywordAndUrlSeed

/-- Python truthiness of the `keyword_texts` list: non-empty is truthy. -/
def truthyKeywords (keyword_texts : List String) : Bool :=
  !keyword_texts.isEmpty

/-- Python truthiness of the optional `page_url` string: `None` and the
empty string are falsy. -/
def truthyUrl : Option String → Bool
  | none => false
  | some s => !s.isEmpty

/-- Embeds `map_keywords_to_string_values` (lines 162-168): wrap each
keyword into a `StringValue`, appending in loop order. -/
def map_keywords_to_string_values (keyword_texts : List String) : List StringValue :=
  keyword_texts.foldl (fun keyword_protos keyword => keyword_protos ++ [⟨keyword⟩]) []

/-- Embeds `map_locations_to_string_values` (lines 171-178); the external
geo-target path resolver is a parameter. -/
def map_locations_to_string_values (resolveGeo : String → String)
    (location_ids : List String) : List StringValue :=
  location_ids.foldl (fun locations location_id => locations ++ [⟨resolveGeo location_id⟩]) []

/-- Embeds `map_language_to_string_value` (lines 181-186); the external
language-constant path resolver is a parameter. -/
def map_language_to_string_value (resolveLang : String → String)
    (language_id : String) : StringValue :=
  ⟨resolveLang language_id⟩

/-- Embeds the validation and seed-construction block of `main`
(lines 54-87).  The combined branch evaluates the undefined identifier
`keyword_textss` on line 86, which raises `NameError` in Python. -/
def buildSeeds (keyword_texts : List String) (page_url : Option String) :
    Except PyError SeedTriple :=
  if !(truthyKeywords keyword_texts || truthyUrl page_url) then
    Except.error PyError.valueError
  else if !truthyKeywords keyword_texts && truthyUrl page_url then
    Except.ok (some { url := ⟨page_url.getD ""⟩ }, none, none)
  else if truthyKeywords keyword_texts && !truthyUrl page_url then
    Except.ok (none, some { keywords := map_keywords_to_string_values keyword_texts }, none)
  else
    Except.error PyError.nameError

/-- Embeds the `month_to_int` dictionary inside `month_to_integer_values`
(lines 145-158). -/
def month_to_int : List (String × String) :=
  [("JANUARY", "/1"), ("FEBRUARY", "/2"), ("MARCH", "/3"), ("APRIL", "/4"),
   ("MAY", "/5"), ("JUNE", "/6"), ("JULY", "/7"), ("AUGUST", "/8"),
   ("SEPTEMBER", "/9"), ("OCTOBER", "/10"), ("NOVEMBER", "/11"), ("DECEMBER", "/12")]

/-- Embeds `month_to_integer_values` (lines 144-159): `str(year)` plus the
dictionary entry for the month name; a missing key is Python's `KeyError`,
modelled as `none`. -/
def month_to_integer_values (month : String) (year : Nat) : Option String :=
  (month_to_int.lookup month).map (fun m_num => toString year ++ m_num)

/-- One element of `keyword_idea_metrics.monthly_search_volumes`: a month
constant, a year (`year.value`) and a search count
(`monthly_searches.value`), the numeric wrappers flattened. -/
structure MonthlySearchVolume where
  month : Month
  year : Nat
  monthly_searches : Nat
  deriving DecidableEq, Repr

/-- The fields of `idea.keyword_idea_metrics` that the script reads; the
competition enum code is stored as its decoded symbolic name. -/
structure KeywordIdeaMetrics where
  competition : String
  competition_index : Nat
  avg_monthly_searches : Nat
  monthly_search_volumes : List MonthlySearchVolume
  deriving DecidableEq, Repr

/-- One idea record of the streamed response (`idea.text.value` and its
metrics). -/
structure IdeaRecord where
  text : String
  keyword_idea_metrics : KeywordIdeaMetrics
  deriving DecidableEq, Repr

/-- The `competition` sub-dictionary of an output entry (lines 123-126). -/
structure Competition where
  level : String
  value : Nat
  deriving DecidableEq, Repr

/-- One value of the output mapping (lines 120-127); the inner
`monthly_search_volumes` dictionary is an insertion-ordered association
list from formatted month key to search count. -/
structure KeywordIdea where
  avg_monthly_searches_volume : Nat
  monthly_search_volumes : List (String × Nat)
  competition : Competition
  deriving DecidableEq, Repr

/-- Python dictionary assignment `d[k] = v` on an insertion-ordered
association list: an existing key keeps its position and gets the new
value, a new key is appended at the end. -/
def dictInsert {α : Type} (k : String) (v : α) : List (String × α) → List (String × α)
  | [] => [(k, v)]
  | (k', v') :: rest => if k' = k then (k', v) :: rest else (k', v') :: dictInsert k v rest

/-- Python dictionary lookup on an insertion-ordered association list. -/
def dictLookup {α : Type} (k : String) : List (String × α) → Option α
  | [] => none
  | (k', v') :: rest => if k' = k then some v' else dictLookup k rest

/-- Embeds the `for index in range(12)` loop (lines 108-118): each of the
twelve positions is read by index (`IndexError` when out of range), the
month key is formatted (`KeyError` when the name is missing from the
table) and stored into the month dictionary. -/
def monthlyLoop (search_volumes : List MonthlySearchVolume) :
    Except PyError (List (String × Nat)) :=
  (List.range 12).foldlM
    (fun monthly_search_volumes index =>
      match search_volumes.get? index with
      | none => Except.error PyError.indexError
      | some sv =>
        match month_to_integer_values sv.month.Name sv.year with
        | none => Except.error PyError.keyError
        | some year_to_month =>
          Except.ok (dictInsert year_to_month sv.monthly_searches monthly_search_volumes))
    []

/-- Embeds the per-idea body of the response loop (lines 104-127): the
month dictionary from `monthlyLoop` together with the average volume and
the competition level/index. -/
def transformIdea (idea : IdeaRecord) : Except PyError KeywordIdea := do
  let monthly ← monthlyLoop idea.keyword_idea_metrics.monthly_search_volumes
  Except.ok
    { avg_monthly_searches_volume := idea.keyword_idea_metrics.avg_monthly_searches,
      monthly_search_volumes := monthly,
      competition :=
        { level := idea.keyword_idea_metrics.competition,
          value := idea.keyword_idea_metrics.competition_index } }

/-- Embeds the `for idea in keyword_ideas` loop (lines 101-128): each
record's transformation is stored into `result` under the keyword text. -/
def processIdeas (keyword_ideas : List IdeaRecord) :
    Except PyError (List (String × KeywordIdea)) :=
  keyword_ideas.foldlM
    (fun result idea => do
      let v ← transformIdea idea
      Except.ok (dictInsert idea.text v result))
    []

/-- The optional `error.location` payload of a fault entry: the field
names of its `field_path_elements`. -/
structure ErrorLocation where
  field_path_elements : List String
  deriving DecidableEq, Repr

/-- One entry of `ex.failure.errors`. -/
structure FaultError where
  message : String
  loc : Option ErrorLocation
  deriving DecidableEq, Repr

/-- The structured `GoogleAdsException`: request id, status code name
(`ex.error.code().name`) and the contained errors. -/
structure Fault where
  request_id : String
  status_name : String
  errors : List FaultError
  deriving DecidableEq, Repr

/-- The console lines printed by the exception handler (lines 131-139). -/
def reportLines (ex : Fault) : List String :=
  ("Request with ID \"" ++ ex.request_id ++ "\" failed with status \"" ++
      ex.status_name ++ "\" and includes the following errors:") ::
    ex.errors.foldl
      (fun acc e =>
        acc ++
          (("\tError with message \"" ++ e.message ++ "\".") ::
            (match e.loc with
             | none => []
             | some l => l.field_path_elements.map (fun fp => "\t\tOn field: " ++ fp))))
      []

/-- How a run of `main` ends when no Python exception escapes: either the
result mapping is returned, or the fault handler printed its report and
called `sys.exit(1)`. -/
inductive RunOutcome where
  | ok (result : List (String × KeywordIdea))
  | exited (code : Nat) (report : List String)
  deriving DecidableEq, Repr

/-- Embeds `main` (lines 33-141).  The external geo/language resolvers and
the remote `generate_keyword_ideas` call are parameters; the remote call
receives the customer id, the resolved language and locations and the
seed triple, and yields either the streamed idea records or a structured
fault.  A `PyError` models a Python exception escaping `main`. -/
def mainRun (resolveGeo : String → String) (resolveLang : String → String)
    (gen : String → StringValue → List StringValue → SeedTriple →
      Except Fault (List IdeaRecord))
    (customer_id : String) (location_ids : List String) (language_id : String)
    (keyword_texts : List String) (page_url : Option String) :
    Except PyError RunOutcome := do
  let locations := map_locations_to_string_values resolveGeo location_ids
  let language := map_language_to_string_value resolveLang language_id
  let seeds ← buildSeeds keyword_texts page_url
  match gen customer_id language locations seeds with
  | Except.error ex => Except.ok (RunOutcome.exited 1 (reportLines ex))
  | Except.ok keyword_ideas =>
    match processIdeas keyword_ideas with
    | Except.error e => Except.error e
    | Except.ok result => Except.ok (RunOutcome.ok result)

/-- Month number of each month constant, following the spec's fixed table
JANUARY=1 through DECEMBER=12 (spec-side description, to be compared with
the source's string table). -/
def specMonthNumber : Month → Nat
  | .january => 1
  | .february => 2
  | .march => 3
  | .april => 4
  | .may => 5
  | .june => 6
  | .july => 7
  | .august => 8
  | .september => 9
  | .october => 10
  | .november => 11
  | .december => 12

/-- Spec-side formatted month key, "<year>/<month-number>". -/
def specKeyOf (sv : MonthlySearchVolume) : String :=
  toString sv.year ++ ("/" ++ toString (specMonthNumber sv.month))

/-- Spec-side month dictionary: each record's formatted key mapped to its
search count, in record order. -/
def specMonthlyEntries (search_volumes : List MonthlySearchVolume) : List (String × Nat) :=
  search_volumes.foldl (fun acc sv => dictInsert (specKeyOf sv) sv.monthly_searches acc) []

/-- Spec-side "last write wins" selector: the last record of the sequence
whose keyword text equals `t`, if any. -/
def specLastWithText (t : String) : List IdeaRecord → Option IdeaRecord
  | [] => none
  | idea :: rest =>
    match specLastWithText t rest with
    | some r => some r
    | none => if idea.text = t then some idea else none

/-- Concrete input for the short-response case: eleven monthly records. -/
def shortIdea : IdeaRecord :=
  { text := "x",
    keyword_idea_metrics :=
      { competition := "LOW", competition_index := 0, avg_monthly_searches := 0,
        monthly_search_volumes := List.replicate 11 ⟨Month.january, 2020, 1⟩ } }

/-- Twelve monthly records shared by the duplicate-text example. -/
def dupVolumes : List MonthlySearchVolume :=
  List.replicate 12 ⟨Month.january, 2020, 30⟩

/-- Two idea records sharing the keyword text "shoes". -/
def dupIdeas : List IdeaRecord :=
  [{ text := "shoes",
     keyword_idea_metrics :=
       { competition := "LOW", competition_index := 10, avg_monthly_searches := 1,
         monthly_search_volumes := dupVolumes } },
   { text := "shoes",
     keyword_idea_metrics :=
       { competition := "HIGH", competition_index := 80, avg_monthly_searches := 2,
         monthly_search_volumes := dupVolumes } }]

/-- The transformation of the second (later) of the two duplicate records. -/
def dupValue : KeywordIdea :=
  { avg_monthly_searches_volume := 2,
    monthly_search_volumes := [("2020/1", 30)],
    competition := { level := "HIGH", value := 80 } }

/-- Twelve monthly records, one per month of 2024. -/
def shoesVolumes : List MonthlySearchVolume :=
  [⟨Month.january, 2024, 10⟩, ⟨Month.february, 2024, 20⟩, ⟨Month.march, 2024, 30⟩,
   ⟨Month.april, 2024, 40⟩, ⟨Month.may, 2024, 50⟩, ⟨Month.june, 2024, 60⟩,
   ⟨Month.july, 2024, 70⟩, ⟨Month.august, 2024, 80⟩, ⟨Month.september, 2024, 90⟩,
   ⟨Month.october, 2024, 100⟩, ⟨Month.november, 2024, 110⟩, ⟨Month.december, 2024, 120⟩]

/-- A structured fault with one error entry and no field path. -/
def sampleFault : Fault :=
  { request_id := "abc123", status_name := "INVALID_ARGUMENT",
    errors := [{ message := "Invalid customer ID", loc := none }] }

/-- Concrete input with thirteen monthly records. -/
def wideIdea : IdeaRecord :=
  { text := "y",
    keyword_idea_metrics :=
      { competition := "MEDIUM", competition_index := 50, avg_monthly_searches := 7,
        monthly_search_volumes := List.replicate 13 ⟨Month.february, 2021, 4⟩ } }

/-- A loop that appends one mapped element per iteration produces the map
of the input after the accumulator. -/
theorem foldl_append_eq_map {α β : Type} (f : α → β) (l : List α) :
    ∀ acc : List β, l.foldl (fun a x => a ++ [f x]) acc = acc ++ l.map f := by
  induction l with
  | nil => intro acc; simp
  | cons x xs ih => intro acc; simp [ih]

/-- `map_keywords_to_string_values` wraps each keyword in input order. -/
theorem map_keywords_to_string_values_eq_map (keyword_texts : List String) :
    map_keywords_to_string_values keyword_texts =
      keyword_texts.map (fun keyword => ⟨keyword⟩) := by
  simpa using foldl_append_eq_map (fun keyword => (⟨keyword⟩ : StringValue)) keyword_texts []

/-- The month dictionary hits every month-constant name and yields the
spec's month number. -/
theorem month_name_lookup (m : Month) (y : Nat) :
    month_to_integer_values m.Name y =
      some (toString y ++ ("/" ++ toString (specMonthNumber m))) := by
  cases m <;> rfl

/-- Bind on a successful `Except` computation applies the continuation. -/
theorem except_ok_bind {ε α β : Type} (a : α) (f : α → Except ε β) :
    (Except.ok (ε := ε) a).bind f = f a := rfl

/-- Bind on a failed `Except` computation keeps the error. -/
theorem except_error_bind {ε α β : Type} (e : ε) (f : α → Except ε β) :
    (Except.error (α := α) e).bind f = Except.error (α := β) e := rfl

/-- Splitting an effectful left fold over `Except` at a list append. -/
theorem exceptFoldlM_append {σ α ε : Type} (f : σ → α → Except ε σ) (l₁ l₂ : List α) :
    ∀ s : σ, (l₁ ++ l₂).foldlM f s = (l₁.foldlM f s).bind (fun s' => l₂.foldlM f s') := by
  induction l₁ with
  | nil => intro s; rfl
  | cons a l ih =>
    intro s
    show (f s a).bind _ = ((f s a).bind _).bind _
    cases f s a with
    | error e => rfl
    | ok s' => simpa using ih s'

/-- Running the twelve-iteration index loop over a list with at least
twelve records succeeds and folds exactly the first twelve records. -/
theorem monthlyLoop_aux (vs : List MonthlySearchVolume) :
    ∀ (n : Nat), n ≤ vs.length → ∀ acc : List (String × Nat),
      (List.range n).foldlM
        (fun monthly_search_volumes index =>
          match vs.get? index with
          | none => Except.error PyError.indexError
          | some sv =>
            match month_to_integer_values sv.month.Name sv.year with
            | none => Except.error PyError.keyError
            | some year_to_month =>
              Except.ok (dictInsert year_to_month sv.monthly_searches monthly_search_volumes))
        acc
      = Except.ok ((vs.take n).foldl
          (fun a sv => dictInsert (specKeyOf sv) sv.monthly_searches a) acc) := by
  intro n
  induction n with
  | zero => intro _ acc; rfl
  | succ n ih =>
    intro h acc
    have hn : n < vs.length := h
    rw [List.range_succ, exceptFoldlM_append, ih (Nat.le_of_lt hn) acc, except_ok_bind]
    have hget : vs.get? n = some (vs.get ⟨n, hn⟩) := List.get?_eq_get hn
    have hget2 : vs[n]? = some (vs.get ⟨n, hn⟩) := by
      rw [← List.get?_eq_getElem?]; exact hget
    have hsingle : ∀ (f : List (String × Nat) → Nat → Except PyError (List (String × Nat)))
        (s : List (String × Nat)), List.foldlM f s [n] = f s n := by
      intro f s
      show (f s n).bind _ = f s n
      cases f s n <;> rfl
    rw [hsingle]
    simp only [hget, month_name_lookup]
    rw [List.take_succ, hget2]
    simp only [Option.toList_some, List.foldl_append, List.foldl_cons, List.foldl_nil, specKeyOf]

/-- The index loop on at least twelve records equals the spec-side month
dictionary of the first twelve. -/
theorem monthlyLoop_of_twelve_le (vs : List MonthlySearchVolume)
    (h : 12 ≤ vs.length) :
    monthlyLoop vs = Except.ok (specMonthlyEntries (vs.take 12)) := by
  have := monthlyLoop_aux vs 12 h []
  simpa [monthlyLoop, specMonthlyEntries] using this

/-- A key is present in a dictionary after insertion exactly when it is
the inserted key or was already present. -/
theorem mem_keys_dictInsert {α : Type} (a k : String) (v : α) (m : List (String × α)) :
    a ∈ (dictInsert k v m).map Prod.fst ↔ a = k ∨ a ∈ m.map Prod.fst := by
  induction m with
  | nil => simp [dictInsert]
  | cons p rest ih =>
    obtain ⟨k', v'⟩ := p
    by_cases hk : k' = k
    · subst hk
      simp [dictInsert]
    · simp [dictInsert, hk, ih]
      tauto

/-- Python dictionary assignment keeps the keys without duplicates. -/
theorem nodup_keys_dictInsert {α : Type} (k : String) (v : α) (m : List (String × α))
    (h : (m.map Prod.fst).Nodup) : ((dictInsert k v m).map Prod.fst).Nodup := by
  induction m with
  | nil => simp [dictInsert]
  | cons p rest ih =>
    obtain ⟨k', v'⟩ := p
    simp only [List.map_cons, List.nodup_cons] at h
    by_cases hk : k' = k
    · subst hk
      simpa [dictInsert] using h
    · simp only [dictInsert, hk, if_false, List.map_cons, List.nodup_cons]
      refine ⟨?_, ih h.2⟩
      rw [mem_keys_dictInsert]
      rintro (rfl | hmem)
      · exact hk rfl
      · exact h.1 hmem

/-- Lookup after Python dictionary assignment: the inserted key yields the
new value, other keys are unaffected. -/
theorem dictLookup_dictInsert {α : Type} (a k : String) (v : α) (m : List (String × α)) :
    dictLookup a (dictInsert k v m) = if a = k then some v else dictLookup a m := by
  induction m with
  | nil =>
    by_cases hak : a = k
    · subst hak
      simp [dictInsert, dictLookup]
    · simp [dictInsert, dictLookup, hak, Ne.symm hak]
  | cons p rest ih =>
    obtain ⟨k', v'⟩ := p
    by_cases hk : k' = k
    · subst hk
      by_cases hka : k' = a
      · subst hka
        simp [dictInsert, dictLookup]
      · simp [dictInsert, dictLookup, hka, Ne.symm hka]
    · by_cases hka : k' = a
      · subst hka
        simp [dictInsert, dictLookup, hk, Ne.symm hk]
      · simp [dictInsert, dictLookup, hk, hka, Ne.symm hka, ih]

/-- Folding the response loop from any accumulator: on success the keys
stay duplicate-free and each text maps to the transformation of the last
record bearing it (falling back to the accumulator). -/
theorem processIdeas_aux :
    ∀ (ideas : List IdeaRecord) (acc m : List (String × KeywordIdea)),
      ideas.foldlM
          (fun result idea => do
            let v ← transformIdea idea
            Except.ok (dictInsert idea.text v result))
          acc
        = Except.ok m →
      ((acc.map Prod.fst).Nodup → (m.map Prod.fst).Nodup) ∧
      ∀ t, dictLookup t m =
        match specLastWithText t ideas with
        | some r => (transformIdea r).toOption
        | none => dictLookup t acc := by
  intro ideas
  induction ideas with
  | nil =>
    intro acc m h
    have hm : acc = m := Except.ok.inj h
    subst hm
    exact ⟨fun hn => hn, fun t => by simp [specLastWithText]⟩
  | cons idea rest ih =>
    intro acc m h
    rw [List.foldlM_cons] at h
    cases htr : transformIdea idea with
    | error e =>
      rw [htr] at h
      exact Except.noConfusion h
    | ok v =>
      rw [htr] at h
      have h' : rest.foldlM
          (fun result idea => do
            let v ← transformIdea idea
            Except.ok (dictInsert idea.text v result))
          (dictInsert idea.text v acc) = Except.ok m := h
      obtain ⟨hnodup, hlook⟩ := ih (dictInsert idea.text v acc) m h'
      refine ⟨fun hacc => hnodup (nodup_keys_dictInsert _ _ _ hacc), fun t => ?_⟩
      have := hlook t
      rw [this]
      cases hrest : specLastWithText t rest with
      | some r => simp [specLastWithText, hrest]
      | none =>
        simp only [specLastWithText, hrest]
        by_cases ht : idea.text = t
        · subst ht
          simp [dictLookup_dictInsert, htr, Except.toOption]
        · have ht' : ¬(t = idea.text) := fun hh => ht hh.symm
          simp [dictLookup_dictInsert, ht, ht']

/-- C1: at the failing input (keywords `["a"]`, page URL
"http://example.com") the combined keyword+URL branch evaluates the
undefined identifier `keyword_textss` (line 86) and raises `NameError`:
no combined seed carrying the URL and the keyword texts is produced, and
the whole run fails with that `NameError` for every choice of the
external services. -/
theorem combined_branch_raises_name_error :
    buildSeeds ["a"] (some "http://example.com") = Except.error PyError.nameError ∧
    (∀ (resolveGeo resolveLang : String → String)
       (gen : String → StringValue → List StringValue → SeedTriple →
         Except Fault (List IdeaRecord))
       (customer_id : String) (location_ids : List String) (language_id : String),
       mainRun resolveGeo resolveLang gen customer_id location_ids language_id
           ["a"] (some "http://example.com") = Except.error PyError.nameError) :=
  ⟨rfl, fun _ _ _ _ _ _ => rfl⟩

/-- C2: with an empty keyword list and no page URL the run fails with
`ValueError` (the spec's `InvalidArgument`) for every choice of the
external resolvers and of the remote generate call, so the failure cannot
involve any remote interaction; the seed-construction step itself already
fails, so no seed payload is built. -/
theorem empty_inputs_invalid_argument :
    (∀ (resolveGeo resolveLang : String → String)
       (gen : String → StringValue → List StringValue → SeedTriple →
         Except Fault (List IdeaRecord))
       (customer_id : String) (location_ids : List String) (language_id : String),
       mainRun resolveGeo resolveLang gen customer_id location_ids language_id
           [] none = Except.error PyError.valueError) ∧
    buildSeeds [] none = Except.error PyError.valueError :=
  ⟨fun _ _ _ _ _ _ => rfl, rfl⟩

/-- C3: for every year and every month-constant name the key formatter
produces "<year>/<month-number>" with the month number from the fixed
JANUARY=1 … DECEMBER=12 table; in particular ("JANUARY", 2024) gives
"2024/1" and ("DECEMBER", 2023) gives "2023/12". -/
theorem month_year_key_formatting :
    (∀ (y : Nat) (m : Month),
        month_to_integer_values m.Name y =
          some (toString y ++ ("/" ++ toString (specMonthNumber m)))) ∧
    month_to_integer_values "JANUARY" 2024 = some "2024/1" ∧
    month_to_integer_values "DECEMBER" 2023 = some "2023/12" :=
  ⟨fun y m => month_name_lookup m y, rfl, rfl⟩

/-- C4: a non-empty keyword list without a page URL yields the
keyword-only seed with exactly the given keywords wrapped in order; the
URL-only and combined variants stay unset. -/
theorem keyword_only_payload (keyword_texts : List String)
    (h : keyword_texts ≠ []) :
    buildSeeds keyword_texts none =
      Except.ok
        (none, some { keywords := keyword_texts.map (fun keyword => ⟨keyword⟩) }, none) := by
  have hk : truthyKeywords keyword_texts = true := by
    simp [truthyKeywords, h]
  simp [buildSeeds, hk, truthyUrl, map_keywords_to_string_values_eq_map]

/-- Witness for C4 at keywords `["a", "b"]`. -/
theorem keyword_only_payload_witness :
    (["a", "b"] : List String) ≠ [] ∧
    buildSeeds ["a", "b"] none =
      Except.ok (none, some { keywords := [⟨"a"⟩, ⟨"b"⟩] }, none) :=
  ⟨by simp, keyword_only_payload ["a", "b"] (by simp)⟩

/-- C5 counterexample: the empty string is a present page URL, yet with no
keywords the code raises `ValueError` instead of building the URL-only
seed, because Python treats the empty string as falsy. -/
theorem url_only_empty_url_counterexample :
    buildSeeds [] (some "") = Except.error PyError.valueError ∧
    buildSeeds [] (some "") ≠ Except.ok (some { url := ⟨""⟩ }, none, none) :=
  ⟨rfl, fun hco => Except.noConfusion hco⟩

/-- C5 as amended: a present non-empty page URL with an empty keyword list
yields the URL-only seed carrying that URL; the keyword-only and combined
variants stay unset. -/
theorem url_only_payload (page_url : String) (h : page_url ≠ "") :
    buildSeeds [] (some page_url) =
      Except.ok (some { url := ⟨page_url⟩ }, none, none) := by
  have hempty : page_url.isEmpty = false := by
    rw [← Bool.not_eq_true, String.isEmpty_iff]
    exact h
  have hu : truthyUrl (some page_url) = true := by
    simp [truthyUrl, hempty]
  simp [buildSeeds, truthyKeywords, hu]

/-- Witness for the amended C5 at URL "http://example.com". -/
theorem url_only_payload_witness :
    "http://example.com" ≠ "" ∧
    buildSeeds [] (some "http://example.com") =
      Except.ok (some { url := ⟨"http://example.com"⟩ }, none, none) :=
  ⟨by decide, url_only_payload "http://example.com" (by decide)⟩

/-- With at least twelve monthly records the per-idea transformation
succeeds and reads exactly the first twelve of them. -/
theorem transformIdea_of_le (idea : IdeaRecord)
    (h : 12 ≤ idea.keyword_idea_metrics.monthly_search_volumes.length) :
    transformIdea idea =
      Except.ok
        { avg_monthly_searches_volume := idea.keyword_idea_metrics.avg_monthly_searches,
          monthly_search_volumes :=
            specMonthlyEntries (idea.keyword_idea_metrics.monthly_search_volumes.take 12),
          competition :=
            { level := idea.keyword_idea_metrics.competition,
              value := idea.keyword_idea_metrics.competition_index } } := by
  show (monthlyLoop idea.keyword_idea_metrics.monthly_search_volumes).bind _ = _
  rw [monthlyLoop_of_twelve_le _ h]
  rfl

/-- C6: an idea record with text t, average a, competition name c with
index i and twelve monthly records produces the output entry at key t
holding {avg, the twelve formatted month entries, {level, value}}. -/
theorem idea_record_transformation (t c : String) (a i : Nat)
    (vs : List MonthlySearchVolume) (h : vs.length = 12) :
    processIdeas
        [{ text := t,
           keyword_idea_metrics :=
             { competition := c, competition_index := i, avg_monthly_searches := a,
               monthly_search_volumes := vs } }] =
      Except.ok
        [(t, { avg_monthly_searches_volume := a,
               monthly_search_volumes := specMonthlyEntries vs,
               competition := { level := c, value := i } })] := by
  have htake : vs.take 12 = vs := by
    rw [← h]
    exact List.take_length vs
  have htr := transformIdea_of_le
    { text := t,
      keyword_idea_metrics :=
        { competition := c, competition_index := i, avg_monthly_searches := a,
          monthly_search_volumes := vs } }
    (by simpa using h.ge)
  rw [htake] at htr
  show ((transformIdea _).bind _).bind _ = _
  rw [htr]
  rfl

/-- Witness for C6: the "shoes" record of the spec's example with twelve
distinct monthly records. -/
theorem idea_record_transformation_witness :
    shoesVolumes.length = 12 ∧
    processIdeas
        [{ text := "shoes",
           keyword_idea_metrics :=
             { competition := "HIGH", competition_index := 80,
               avg_monthly_searches := 1000,
               monthly_search_volumes := shoesVolumes } }] =
      Except.ok
        [("shoes",
          { avg_monthly_searches_volume := 1000,
            monthly_search_volumes := specMonthlyEntries shoesVolumes,
            competition := { level := "HIGH", value := 80 } })] :=
  ⟨by decide, idea_record_transformation "shoes" "HIGH" 1000 80 shoesVolumes (by decide)⟩

/-- C7: when the remote call raises a structured fault, the run prints the
request id, the status name, every error message and every present
field-path element name, and terminates through `sys.exit(1)` with no
result mapping. -/
theorem remote_fault_reported_and_exit (resolveGeo resolveLang : String → String)
    (customer_id : String) (location_ids : List String) (language_id : String)
    (keyword_texts : List String) (page_url : Option String)
    (seeds : SeedTriple) (hs : buildSeeds keyword_texts page_url = Except.ok seeds)
    (fault : Fault) :
    mainRun resolveGeo resolveLang (fun _ _ _ _ => Except.error fault)
        customer_id location_ids language_id keyword_texts page_url =
      Except.ok (RunOutcome.exited 1
        (("Request with ID \"" ++ fault.request_id ++ "\" failed with status \"" ++
            fault.status_name ++ "\" and includes the following errors:") ::
          fault.errors.foldl
            (fun acc e =>
              acc ++
                (("\tError with message \"" ++ e.message ++ "\".") ::
                  (match e.loc with
                   | none => []
                   | some l =>
                     l.field_path_elements.map (fun fp => "\t\tOn field: " ++ fp))))
            [])) := by
  show (buildSeeds keyword_texts page_url).bind _ = _
  rw [hs]
  rfl

/-- Witness for C7: request id "abc123" with the single error message
"Invalid customer ID", on a keywords-only run. -/
theorem remote_fault_reported_witness :
    buildSeeds ["a"] none =
      Except.ok ((none, some { keywords := [⟨"a"⟩] }, none) : SeedTriple) ∧
    mainRun (fun s => s) (fun s => s) (fun _ _ _ _ => Except.error sampleFault)
        "cust" ["2392"] "1005" ["a"] none =
      Except.ok (RunOutcome.exited 1
        (("Request with ID \"" ++ sampleFault.request_id ++ "\" failed with status \"" ++
            sampleFault.status_name ++ "\" and includes the following errors:") ::
          sampleFault.errors.foldl
            (fun acc e =>
              acc ++
                (("\tError with message \"" ++ e.message ++ "\".") ::
                  (match e.loc with
                   | none => []
                   | some l =>
                     l.field_path_elements.map (fun fp => "\t\tOn field: " ++ fp))))
            [])) :=
  ⟨rfl,
   remote_fault_reported_and_exit (fun s => s) (fun s => s) "cust" ["2392"] "1005"
     ["a"] none (none, some { keywords := [⟨"a"⟩] }, none) rfl sampleFault⟩

/-- C8: location resolution returns one resolved path per input
identifier, in input order. -/
theorem location_resolution_preserves_order (resolveGeo : String → String)
    (location_ids : List String) :
    map_locations_to_string_values resolveGeo location_ids =
      location_ids.map (fun location_id => ⟨resolveGeo location_id⟩) ∧
    (map_locations_to_string_values resolveGeo location_ids).length =
      location_ids.length := by
  have h1 : map_locations_to_string_values resolveGeo location_ids =
      location_ids.map (fun location_id => ⟨resolveGeo location_id⟩) := by
    simpa [map_locations_to_string_values] using
      foldl_append_eq_map (fun location_id => (⟨resolveGeo location_id⟩ : StringValue))
        location_ids []
  exact ⟨h1, by rw [h1, List.length_map]⟩

/-- C9: on any successfully transformed response the mapping's keys carry
no duplicates, and each text is mapped to the transformation of the last
record of the sequence bearing that text (last write wins). -/
theorem duplicate_text_last_write_wins (ideas : List IdeaRecord)
    (m : List (String × KeywordIdea)) (h : processIdeas ideas = Except.ok m) :
    (m.map Prod.fst).Nodup ∧
    ∀ t, dictLookup t m =
      (specLastWithText t ideas).bind (fun r => (transformIdea r).toOption) := by
  obtain ⟨hnodup, hlook⟩ := processIdeas_aux ideas [] m h
  refine ⟨hnodup (by simp), fun t => ?_⟩
  rw [hlook t]
  cases hrest : specLastWithText t ideas with
  | some r => simp
  | none => simp [dictLookup]

/-- Witness for C9: two records both carrying the text "shoes"; the entry
is unique and holds the second record's transformation. -/
theorem duplicate_text_last_write_wins_witness :
    processIdeas dupIdeas = Except.ok [("shoes", dupValue)] ∧
    (([("shoes", dupValue)] : List (String × KeywordIdea)).map Prod.fst).Nodup ∧
    dictLookup "shoes" [("shoes", dupValue)] =
      (specLastWithText "shoes" dupIdeas).bind (fun r => (transformIdea r).toOption) :=
  ⟨rfl,
   (duplicate_text_last_write_wins dupIdeas [("shoes", dupValue)] rfl).1,
   (duplicate_text_last_write_wins dupIdeas [("shoes", dupValue)] rfl).2 "shoes"⟩

/-- C10: the transformation reads exactly the first twelve monthly records
by index: with twelve or more records it succeeds and ignores everything
beyond the first twelve, while the concrete eleven-record input shows the
out-of-range branch is reachable. -/
theorem twelve_month_indexing :
    (∀ idea : IdeaRecord,
       12 ≤ idea.keyword_idea_metrics.monthly_search_volumes.length →
       transformIdea idea =
         Except.ok
           { avg_monthly_searches_volume := idea.keyword_idea_metrics.avg_monthly_searches,
             monthly_search_volumes :=
               specMonthlyEntries (idea.keyword_idea_metrics.monthly_search_volumes.take 12),
             competition :=
               { level := idea.keyword_idea_metrics.competition,
                 value := idea.keyword_idea_metrics.competition_index } } ∧
       transformIdea
           { idea with keyword_idea_metrics :=
               { idea.keyword_idea_metrics with monthly_search_volumes :=
                   idea.keyword_idea_metrics.monthly_search_volumes.take 12 } } =
         transformIdea idea) ∧
    transformIdea shortIdea = Except.error PyError.indexError := by
  constructor
  · intro idea h
    have h1 := transformIdea_of_le idea h
    have hlen : 12 ≤ (idea.keyword_idea_metrics.monthly_search_volumes.take 12).length := by
      rw [List.length_take]
      omega
    have h2 := transformIdea_of_le
      { idea with keyword_idea_metrics :=
          { idea.keyword_idea_metrics with monthly_search_volumes :=
              idea.keyword_idea_metrics.monthly_search_volumes.take 12 } }
      (by simpa using hlen)
    refine ⟨h1, ?_⟩
    rw [h1, h2]
    simp [List.take_take]
  · rfl

/-- Witness for C10 at a record with thirteen monthly records. -/
theorem twelve_month_indexing_witness :
    12 ≤ wideIdea.keyword_idea_metrics.monthly_search_volumes.length ∧
    transformIdea wideIdea =
      Except.ok
        { avg_monthly_searches_volume := wideIdea.keyword_idea_metrics.avg_monthly_searches,
          monthly_search_volumes :=
            specMonthlyEntries (wideIdea.keyword_idea_metrics.monthly_search_volumes.take 12),
          competition :=
            { level := wideIdea.keyword_idea_metrics.competition,
              value := wideIdea.keyword_idea_metrics.competition_index } } ∧
    transformIdea
        { wideIdea with keyword_idea_metrics :=
            { wideIdea.keyword_idea_metrics with monthly_search_volumes :=
                wideIdea.keyword_idea_metrics.monthly_search_volumes.take 12 } } =
      transformIdea wideIdea :=
  ⟨by decide, twelve_month_indexing.1 wideIdea (by decide)⟩

end KJA
